import Mathlib

/-!
Shallow embedding of the Genki-Quiz program (src/main.go) and proofs about it.

The program is a single-file Go quiz application.  Its core logic consists of:
  * `loadQuestionsFromExcel` - parses tabular rows into `Question` records,
    skipping the header row and any row with fewer than 6 fields;
  * `getQuestionsByChapter` - filters the bank by chapter key;
  * `getRandomAnswers` - collects the answers of pool questions whose answer
    differs from the correct one, shuffles them in place, and returns
    `answers[:count]` (a Go slice expression that panics when `count`
    exceeds the length of the collected list);
  * a closure-based UI loop: `showChapterSelection` swaps the view to the
    chapter menu, the chapter radio callback sets the chapter and calls
    `loadQuestion`, `loadQuestion` picks a uniformly random question from
    the chapter pool (displaying a message when the pool is empty) and
    builds the option buttons, and each option button's callback increments
    the score iff its label equals the correct answer and then immediately
    calls `loadQuestion` again.

Randomness is modelled by explicit parameters: the random index fed to
`rand.Intn` and, for `rand.Shuffle`, the list of (i, j) swap positions the
shuffle performs.  Go panics (slice bound out of range) are modelled by
`Option`: `none` means the process crashed.
-/

/-- The `Question` struct of src/main.go. -/
structure Question where
  QID : String
  QChapter : String
  QAnswer : String
  QHirakata : String
  QRomaji : String
  QType : String
deriving DecidableEq, Repr

/-- One data row of the question source, as `loadQuestionsFromExcel` consumes
it: rows with fewer than 6 fields are skipped, otherwise the first six fields
are taken positionally.  No field content is inspected. -/
def parseRow (row : List String) : Option Question :=
  if row.length < 6 then
    none
  else
    some { QID := row.getD 0 "", QChapter := row.getD 1 "",
           QAnswer := row.getD 2 "", QHirakata := row.getD 3 "",
           QRomaji := row.getD 4 "", QType := row.getD 5 "" }

/-- `loadQuestionsFromExcel` of src/main.go, restricted to its row-processing
loop (`for _, row := range rows[1:]`): the transport-level file access is an
external concern; `rows` stands for the rows the sheet yielded.  The header
row is skipped, then each remaining row with at least 6 fields becomes a
`Question`. -/
def loadQuestionsFromExcel (rows : List (List String)) : List Question :=
  rows.tail.filterMap parseRow

/-- `getQuestionsByChapter` of src/main.go. -/
def getQuestionsByChapter (questions : List Question) (chapter : String) :
    List Question :=
  questions.filter (fun q => q.QChapter == chapter)

/-- One in-place swap `a[i], a[j] = a[j], a[i]` as performed by the callback
passed to `rand.Shuffle`.  Out-of-range positions leave the list unchanged
(`rand.Shuffle` only ever produces in-range positions, so this totalisation
is never exercised by the program). -/
def swapAt (l : List α) (i j : Nat) : List α :=
  match l.get? i, l.get? j with
  | some x, some y => (l.set i y).set j x
  | _, _ => l

/-- The effect of `rand.Shuffle` on a list, parametrised by the sequence of
(i, j) swaps the PRNG produced. -/
def applySwaps (l : List α) (swaps : List (Nat × Nat)) : List α :=
  swaps.foldl (fun acc p => swapAt acc p.1 p.2) l

/-- `getRandomAnswers` of src/main.go.  It collects the answers of all pool
questions whose answer differs from `correctAnswer` (duplicates included -
the code performs no de-duplication), shuffles them, and evaluates the Go
slice expression `answers[:count]`, which panics (`none`) when `count`
exceeds the number of collected answers. -/
def getRandomAnswers (questions : List Question) (correctAnswer : String)
    (count : Nat) (swaps : List (Nat × Nat)) : Option (List String) :=
  let answers :=
    (questions.filter (fun q => q.QAnswer != correctAnswer)).map Question.QAnswer
  let shuffled := applySwaps answers swaps
  if count ≤ shuffled.length then some (shuffled.take count) else none

/-- The random pick `chapterQuestions[rand.Intn(len(chapterQuestions))]`
inside `loadQuestion`, with the PRNG output modelled by `r` (reduced modulo
the pool size, exactly the distribution of `rand.Intn`).  Returns `none`
exactly when the pool is empty, mirroring the `len(chapterQuestions) == 0`
early return. -/
def pickQuestion (pool : List Question) (r : Nat) : Option Question :=
  pool.get? (r % pool.length)

/- ### Basic lemmas about the shuffle model -/

theorem length_swapAt (l : List α) (i j : Nat) :
    (swapAt l i j).length = l.length := by
  unfold swapAt
  rcases h1 : l.get? i with _ | x <;> rcases h2 : l.get? j with _ | y <;>
    simp [List.length_set]

theorem mem_swapAt {l : List α} {i j : Nat} {a : α} :
    a ∈ swapAt l i j → a ∈ l := by
  unfold swapAt
  rcases h1 : l.get? i with _ | x <;> rcases h2 : l.get? j with _ | y <;>
    intro hmem
  · exact hmem
  · exact hmem
  · exact hmem
  · have hx : x ∈ l := List.get?_mem h1
    have hy : y ∈ l := List.get?_mem h2
    rcases List.mem_or_eq_of_mem_set hmem with hmem1 | rfl
    · rcases List.mem_or_eq_of_mem_set hmem1 with hmem2 | rfl
      · exact hmem2
      · exact hy
    · exact hx

theorem length_applySwaps (l : List α) (swaps : List (Nat × Nat)) :
    (applySwaps l swaps).length = l.length := by
  induction swaps generalizing l with
  | nil => rfl
  | cons p ps ih =>
    simp only [applySwaps, List.foldl_cons] at *
    rw [ih, length_swapAt]

theorem mem_applySwaps {l : List α} {swaps : List (Nat × Nat)} {a : α} :
    a ∈ applySwaps l swaps → a ∈ l := by
  induction swaps generalizing l with
  | nil => exact id
  | cons p ps ih =>
    intro h
    exact mem_swapAt (ih h)

/- ### The UI state machine of `main` (src/main.go, first program variant)

`main` keeps its state in the closure variables `score` and `currentChapter`
together with the widget contents: the text of `questionLabel` and
`romajiLabel`, the option buttons in `optionsContainer` (each capturing the
question `q` that was current when it was built), and which of the two views
(`showChapterSelection`'s menu or `gameLayout`) currently fills
`questionContainer`.  We package these into `GameState`. -/

/-- Which layout currently fills `questionContainer`. -/
inductive View
  | chapterSelect
  | quiz
deriving DecidableEq, Repr

/-- The mutable state of `main`: the loaded bank (read-only after load), the
closure variables `score` and `currentChapter`, and the displayed widget
contents.  `currentQuestion` is the question captured by the currently
displayed option buttons (`none` when no option buttons exist). -/
structure GameState where
  questions : List Question
  score : Nat
  currentChapter : String
  view : View
  questionLabel : String
  romajiLabel : String
  options : List String
  currentQuestion : Option Question
deriving DecidableEq, Repr

/-- The state right after `main`'s setup: bank loaded, `score := 0`,
`currentChapter := ""`, and `showChapterSelection()` called once, so the
chapter menu is showing and no quiz widgets are populated. -/
def initState (questions : List Question) : GameState :=
  { questions := questions, score := 0, currentChapter := "",
    view := View.chapterSelect, questionLabel := "", romajiLabel := "",
    options := [], currentQuestion := none }

/-- The `loadQuestion` closure of src/main.go.  `r` is the output of
`rand.Intn`; `s1` and `s2` are the swap sequences of the two `rand.Shuffle`
calls (distractor shuffle, option shuffle).  When the chapter pool is empty
it displays a message and clears the option buttons; otherwise it picks a
random question, builds its option list (`getRandomAnswers` ++ correct
answer, shuffled), and populates the widgets.  `none` models the Go panic
inside `getRandomAnswers` when fewer than 3 distinct-from-correct answers
exist in the pool. -/
def loadQuestion (r : Nat) (s1 s2 : List (Nat × Nat)) (s : GameState) :
    Option GameState :=
  let pool := getQuestionsByChapter s.questions s.currentChapter
  match pickQuestion pool r with
  | none =>
      some { s with questionLabel := "No questions available for this chapter.",
                    options := [], currentQuestion := none }
  | some q =>
      match getRandomAnswers pool q.QAnswer 3 s1 with
      | none => none
      | some randomAnswers =>
          let allAnswers := applySwaps (randomAnswers ++ [q.QAnswer]) s2
          some { s with questionLabel := q.QHirakata,
                        romajiLabel := "Romaji: " ++ q.QRomaji,
                        options := allAnswers,
                        currentQuestion := some q }

/-- The callback of one option button labelled `opt`.  Such a button exists
only while option buttons are displayed (`currentQuestion = some q`,
`opt ∈ options`); pressing it increments `score` iff `opt` equals the
captured question's answer, then immediately calls `loadQuestion` again.
When no such button exists the press is impossible and the state is
unchanged. -/
def submitAnswer (opt : String) (r : Nat) (s1 s2 : List (Nat × Nat))
    (s : GameState) : Option GameState :=
  match s.currentQuestion with
  | none => some s
  | some q =>
      if opt ∈ s.options then
        loadQuestion r s1 s2
          { s with score := s.score + if opt = q.QAnswer then 1 else 0 }
      else
        some s

/-- The `showChapterSelection` closure of src/main.go: it replaces
`questionContainer`'s contents with the chapter menu.  The closure variables
(`score`, `currentChapter`) and the quiz widgets are not touched. -/
def showChapterSelection (s : GameState) : GameState :=
  { s with view := View.chapterSelect }

/-- The chapter radio-group callback of `showChapterSelection`: it sets
`currentChapter`, swaps in `gameLayout`, and calls `loadQuestion`. -/
def selectChapter (c : String) (r : Nat) (s1 s2 : List (Nat × Nat))
    (s : GameState) : Option GameState :=
  loadQuestion r s1 s2 { s with currentChapter := c, view := View.quiz }

/-- One user action.  The `Nat` and swap-list arguments are the PRNG outputs
consumed by the resulting `loadQuestion` call, when there is one. -/
inductive UAction
  | changeChapter
  | selectChapter (c : String) (r : Nat) (s1 s2 : List (Nat × Nat))
  | nextQuestion (r : Nat) (s1 s2 : List (Nat × Nat))
  | submit (opt : String) (r : Nat) (s1 s2 : List (Nat × Nat))

/-- One user action applied to the current state.  Buttons that are not on
screen in the current view cannot be pressed: such an action leaves the
state unchanged.  `none` models a process crash (Go panic). -/
def step (a : UAction) (s : GameState) : Option GameState :=
  match a with
  | UAction.changeChapter =>
      if s.view = View.quiz then some (showChapterSelection s) else some s
  | UAction.selectChapter c r s1 s2 =>
      if s.view = View.chapterSelect then selectChapter c r s1 s2 s else some s
  | UAction.nextQuestion r s1 s2 =>
      if s.view = View.quiz then loadQuestion r s1 s2 s else some s
  | UAction.submit opt r s1 s2 =>
      if s.view = View.quiz then submitAnswer opt r s1 s2 s else some s

/-- A sequence of user actions run from a state; `none` as soon as any
action crashes. -/
def runActions (s : GameState) : List UAction → Option GameState
  | [] => some s
  | a :: rest =>
      match step a s with
      | none => none
      | some s2 => runActions s2 rest

/-- The number of answers submitted in an action sequence: the ghost counter
`askedCount` of the specification, which the program itself does not
maintain. -/
def askedCountOf (as : List UAction) : Nat :=
  as.countP (fun a =>
    match a with
    | UAction.submit _ _ _ _ => true
    | _ => false)

/- ### Concrete fixtures used for counterexamples and witnesses -/

/-- Chapter "1" question with answer "A". -/
def qA : Question := ⟨"1", "1", "A", "ha", "ra", "t"⟩

/-- Chapter "1" question with answer "B". -/
def qB : Question := ⟨"2", "1", "B", "hb", "rb", "t"⟩

/-- Chapter "1" question with answer "C". -/
def qC : Question := ⟨"3", "1", "C", "hc", "rc", "t"⟩

/-- Chapter "1" question with answer "D". -/
def qD : Question := ⟨"4", "1", "D", "hd", "rd", "t"⟩

/-- A bank of four chapter-"1" questions with pairwise distinct answers. -/
def bank4 : List Question := [qA, qB, qC, qD]

/-- Chapter "2" question whose answer duplicates `qDup2`'s. -/
def qDup1 : Question := ⟨"10", "2", "B", "h1", "r1", "t"⟩

/-- Chapter "2" question whose answer duplicates `qDup1`'s. -/
def qDup2 : Question := ⟨"11", "2", "B", "h2", "r2", "t"⟩

/- ### Distractor selection: where the returned strings come from -/

/-- Every string produced by `getRandomAnswers` is the answer of some pool
question and differs from the correct answer: the collected list is built by
filtering on `q.QAnswer != correctAnswer` and mapping to `QAnswer`, and the
shuffle and the `answers[:count]` slice only permute and drop elements. -/
theorem getRandomAnswers_mem {questions : List Question}
    {correctAnswer : String} {count : Nat} {swaps : List (Nat × Nat)}
    {l : List String}
    (h : getRandomAnswers questions correctAnswer count swaps = some l) :
    ∀ s ∈ l, (∃ q ∈ questions, q.QAnswer = s) ∧ s ≠ correctAnswer := by
  intro s hs
  simp only [getRandomAnswers] at h
  split at h
  · cases h
    have h1 := List.take_subset count _ hs
    have h2 := mem_applySwaps h1
    rw [List.mem_map] at h2
    obtain ⟨q, hq, rfl⟩ := h2
    rw [List.mem_filter] at hq
    obtain ⟨hq1, hq2⟩ := hq
    exact ⟨⟨q, hq1, rfl⟩, bne_iff_ne.mp hq2⟩
  · cases h

/-- Claim C9: for every pool and correct answer, no element of the list
returned by `getRandomAnswers` equals the correct answer string (whenever
the call returns at all rather than panicking). -/
theorem claim9_getRandomAnswers_never_correct {questions : List Question}
    {correctAnswer : String} {count : Nat} {swaps : List (Nat × Nat)}
    {l : List String}
    (h : getRandomAnswers questions correctAnswer count swaps = some l) :
    ∀ s ∈ l, s ≠ correctAnswer :=
  fun s hs => ((getRandomAnswers_mem h) s hs).2

/-- Witness for claim C9 at a concrete input: on the four-question bank with
correct answer "A", the call returns ["B", "C", "D"] and none of these is
"A". -/
theorem claim9_getRandomAnswers_never_correct_witness :
    getRandomAnswers bank4 "A" 3 [] = some ["B", "C", "D"] ∧
    ∀ s ∈ ["B", "C", "D"], s ≠ "A" :=
  ⟨by decide,
   @claim9_getRandomAnswers_never_correct bank4 "A" 3 [] ["B", "C", "D"]
     (by decide)⟩

/-- Claim C4 as stated is false: `getRandomAnswers` performs no
de-duplication, so a pool with two questions sharing the answer "B" yields
the duplicate list ["B", "B"]. -/
theorem claim4_counterexample :
    ¬ (∀ (questions : List Question) (correctAnswer : String) (count : Nat)
         (swaps : List (Nat × Nat)) (l : List String),
         getRandomAnswers questions correctAnswer count swaps = some l →
         l.Nodup) := by
  intro h
  have hd := h [qDup1, qDup2] "A" 2 [] ["B", "B"] (by decide)
  exact absurd hd (by decide)

/-- Claim C4, amended: every element of a list returned by
`getRandomAnswers` is the answer of some pool question and differs from the
correct answer, but the list may contain duplicate strings because the code
never de-duplicates. -/
theorem claim4_amended_wrong_answers_only {questions : List Question}
    {correctAnswer : String} {count : Nat} {swaps : List (Nat × Nat)}
    {l : List String}
    (h : getRandomAnswers questions correctAnswer count swaps = some l) :
    ∀ s ∈ l, (∃ q ∈ questions, q.QAnswer = s) ∧ s ≠ correctAnswer :=
  getRandomAnswers_mem h

/-- Witness for amended claim C4 at a concrete input: the duplicate pool
yields ["B", "B"], and every element is a pool answer different from "A". -/
theorem claim4_amended_wrong_answers_only_witness :
    getRandomAnswers [qDup1, qDup2] "A" 2 [] = some ["B", "B"] ∧
    ∀ s ∈ ["B", "B"],
      (∃ q ∈ [qDup1, qDup2], q.QAnswer = s) ∧ s ≠ "A" :=
  ⟨by decide,
   @claim4_amended_wrong_answers_only [qDup1, qDup2] "A" 2 [] ["B", "B"]
     (by decide)⟩

/-- Claim C1 evaluated at the failing input: on a pool with exactly one
distinct wrong answer ("B"), `getRandomAnswers(pool, "A", 3)` evaluates the
Go slice expression `answers[:3]` on a length-1 slice and panics (`none`),
instead of returning the single distractor as the claim requires. -/
theorem claim1_panics_on_insufficient_distractors :
    getRandomAnswers [qA, qDup1] "A" 3 [] = none := by decide

/- ### Question sequencing -/

/-- Claim C2 as stated is false: the next-question pick keeps no record of
asked questions.  With pool [qA, qB], askedIDs = ["1"], and random index 0,
the pick returns qA (ID "1", already asked) even though qB has not been
asked. -/
theorem claim2_counterexample :
    ¬ (∀ (pool : List Question) (askedIDs : List String) (r : Nat)
         (q : Question),
         pickQuestion pool r = some q →
         (∃ p ∈ pool, p.QID ∉ askedIDs) →
         q.QID ∉ askedIDs) := by
  intro h
  have hq := h [qA, qB] ["1"] 0 qA (by decide) ⟨qB, by decide, by decide⟩
  exact hq (by decide)

/-- Claim C2, amended: the next-question selection ignores which questions
were already asked — it simply indexes the chapter pool at the random value
(`chapterQuestions[rand.Intn(len)]`), so the question returned is always a
member of the pool but may be one that was already presented. -/
theorem claim2_amended_pick_in_pool {pool : List Question} {r : Nat}
    {q : Question} (h : pickQuestion pool r = some q) : q ∈ pool :=
  List.get?_mem h

/-- Witness for amended claim C2 at a concrete input: index 5 on the
four-question bank picks qB, a member of the bank. -/
theorem claim2_amended_pick_in_pool_witness :
    pickQuestion bank4 5 = some qB ∧ qB ∈ bank4 :=
  ⟨by decide, @claim2_amended_pick_in_pool bank4 5 qB (by decide)⟩

/- ### Score accounting across the state machine -/

/-- `loadQuestion` never touches the `score` closure variable. -/
theorem loadQuestion_score {r : Nat} {s1 s2 : List (Nat × Nat)}
    {s s2st : GameState} (h : loadQuestion r s1 s2 s = some s2st) :
    s2st.score = s.score := by
  simp only [loadQuestion] at h
  split at h
  · cases h; rfl
  · split at h
    · cases h
    · cases h; rfl

/-- An option-button press changes `score` by exactly the 0/1 increment of
the scoring test and then reloads: the resulting score lies between the old
score and the old score plus one. -/
theorem submitAnswer_score {opt : String} {r : Nat}
    {s1 s2 : List (Nat × Nat)} {s s2st : GameState}
    (h : submitAnswer opt r s1 s2 s = some s2st) :
    s.score ≤ s2st.score ∧ s2st.score ≤ s.score + 1 := by
  simp only [submitAnswer] at h
  split at h
  · cases h; omega
  · split at h
    · have hs := loadQuestion_score h
      simp only [hs]
      split <;> omega
    · cases h; omega

/-- One step never decreases the score, and increases it only on a submit
action, by at most one. -/
theorem step_score {a : UAction} {s s2st : GameState}
    (h : step a s = some s2st) :
    s.score ≤ s2st.score ∧ s2st.score ≤ s.score + askedCountOf [a] := by
  cases a with
  | changeChapter =>
      simp only [step] at h
      split at h <;> cases h <;> simp [showChapterSelection, askedCountOf]
  | selectChapter c r s1 s2 =>
      simp only [step] at h
      split at h
      · have hs := loadQuestion_score h
        simp [selectChapter] at hs
        simp [askedCountOf, hs]
      · cases h; simp [askedCountOf]
  | nextQuestion r s1 s2 =>
      simp only [step] at h
      split at h
      · have hs := loadQuestion_score h
        simp [askedCountOf, hs]
      · cases h; simp [askedCountOf]
  | submit opt r s1 s2 =>
      simp only [step] at h
      split at h
      · have hs := submitAnswer_score h
        have hone : askedCountOf [UAction.submit opt r s1 s2] = 1 := rfl
        omega
      · cases h
        have hone : askedCountOf [UAction.submit opt r s1 s2] = 1 := rfl
        omega

/-- Across any run of user actions the score never decreases, and it grows
by at most the number of submit actions in the run. -/
theorem runActions_score {as : List UAction} {s s2st : GameState}
    (h : runActions s as = some s2st) :
    s.score ≤ s2st.score ∧ s2st.score ≤ s.score + askedCountOf as := by
  induction as generalizing s with
  | nil =>
      cases h
      simp [askedCountOf]
  | cons a rest ih =>
      simp only [runActions] at h
      split at h
      · cases h
      · rename_i smid hstep
        have h1 := step_score hstep
        have h2 := ih h
        have hcount : askedCountOf (a :: rest) =
            askedCountOf [a] + askedCountOf rest := by
          simp [askedCountOf, List.countP_cons]
          split <;> omega
        omega

/-- Claim C10: the score is monotonically non-decreasing under every user
action — no sequence of submits, question loads, or chapter changes ever
decreases or resets the score within a process run. -/
theorem claim10_score_monotone {as : List UAction} {s s2st : GameState}
    (h : runActions s as = some s2st) : s.score ≤ s2st.score :=
  (runActions_score h).1

/-- Trace used in the witness for claim C10: pick chapter "1", answer
correctly once, change chapter, pick chapter "1" again. -/
def tr10 : List UAction :=
  [UAction.selectChapter "1" 0 [] [], UAction.submit "A" 0 [] [],
   UAction.changeChapter, UAction.selectChapter "1" 1 [] []]

/-- The state reached by `tr10` from the freshly initialised four-question
bank. -/
def st10 : GameState :=
  (runActions (initState bank4) tr10).getD (initState bank4)

/-- Witness for claim C10 at a concrete input: the four-action trace ends in
a state whose score (1) is at least the initial score (0). -/
theorem claim10_score_monotone_witness :
    runActions (initState bank4) tr10 = some st10 ∧
    (initState bank4).score ≤ st10.score :=
  ⟨by decide,
   @claim10_score_monotone tr10 (initState bank4) st10 (by decide)⟩

/-- Trace used in the counterexample for claim C3: pick chapter "1", then
submit the answer "A" five times (every reload re-picks question qA, whose
option buttons always contain "A"). -/
def tr3 : List UAction :=
  UAction.selectChapter "1" 0 [] [] ::
    List.replicate 5 (UAction.submit "A" 0 [] [])

/-- The state reached by `tr3` from the freshly initialised four-question
bank. -/
def st3 : GameState :=
  (runActions (initState bank4) tr3).getD (initState bank4)

/-- Claim C3 as stated is false: the program maintains no askedCount and no
totalQuestions cap, so the number of submitted answers is not bounded by the
pool size — after five submissions against the four-question chapter pool,
askedCount = 5 > 4 = len(pool), contradicting the chain
askedCount ≤ totalQuestions ≤ len(pool). -/
theorem claim3_counterexample :
    ¬ (∀ (qs : List Question) (as : List UAction) (s2st : GameState),
        runActions (initState qs) as = some s2st →
        s2st.score ≤ askedCountOf as ∧
        askedCountOf as ≤
          (getQuestionsByChapter s2st.questions s2st.currentChapter).length) := by
  intro h
  have hc := h bank4 tr3 st3 (by decide)
  exact absurd hc.2 (by decide)

/-- Claim C3, amended: the part of the invariant the program does maintain —
at every reachable state, 0 ≤ score ≤ askedCount (the number of answers
submitted so far).  There is no totalQuestions in the program, and
askedCount is not bounded by the pool size. -/
theorem claim3_amended_score_le_asked {qs : List Question}
    {as : List UAction} {s2st : GameState}
    (h : runActions (initState qs) as = some s2st) :
    s2st.score ≤ askedCountOf as := by
  have hb := (runActions_score h).2
  have hz : (initState qs).score = 0 := rfl
  omega

/-- Witness for amended claim C3 at a concrete input: after the six-action
trace the score is 5 and five answers were submitted. -/
theorem claim3_amended_score_le_asked_witness :
    runActions (initState bank4) tr3 = some st3 ∧
    st3.score ≤ askedCountOf tr3 :=
  ⟨by decide, @claim3_amended_score_le_asked bank4 tr3 st3 (by decide)⟩

/- ### Returning to chapter selection -/

/-- Trace used in the counterexample for claim C5: pick chapter "1", answer
correctly once (score becomes 1), then press "Change Chapter". -/
def tr5 : List UAction :=
  [UAction.selectChapter "1" 0 [] [], UAction.submit "A" 0 [] [],
   UAction.changeChapter]

/-- The state reached by `tr5` from the freshly initialised four-question
bank: back at the chapter menu, score still 1. -/
def st5 : GameState :=
  (runActions (initState bank4) tr5).getD (initState bank4)

/-- Claim C5 as stated is false: the only way back to chapter selection is
the "Change Chapter" button, whose handler `showChapterSelection` swaps the
view but resets nothing — after one correct answer and a "Change Chapter"
press the session is at the chapter menu with score 1, not 0. -/
theorem claim5_counterexample :
    ¬ (∀ (qs : List Question) (as : List UAction) (s2st : GameState),
        runActions (initState qs) as = some s2st →
        s2st.view = View.chapterSelect → s2st.score = 0) := by
  intro h
  have hs := h bank4 tr5 st5 (by decide) (by decide)
  exact absurd hs (by decide)

/-- Claim C5, amended: the return-to-chapter-selection action
(`showChapterSelection`) swaps the view to the chapter menu and preserves
everything else — in particular the score is NOT reset — and it is
idempotent: applying it twice yields the same state as applying it once. -/
theorem claim5_amended_changeChapter_preserves
    (s : GameState) :
    (showChapterSelection s).score = s.score ∧
    (showChapterSelection s).view = View.chapterSelect ∧
    showChapterSelection (showChapterSelection s) = showChapterSelection s :=
  ⟨rfl, rfl, rfl⟩

/- ### Submitting an answer -/

/-- A reachable quiz state: chapter "1" selected, question qA displayed with
its four option buttons. -/
def st6 : GameState :=
  { questions := bank4, score := 0, currentChapter := "1", view := View.quiz,
    questionLabel := "ha", romajiLabel := "Romaji: ra",
    options := ["B", "C", "D", "A"], currentQuestion := some qA }

/-- The state after pressing option "A" in `st6` with next random index 1:
the handler scores the answer and immediately loads question qB. -/
def st6b : GameState := (submitAnswer "A" 1 [] [] st6).getD st6

/-- Claim C6 as stated is false: the option-button handler calls
`loadQuestion()` itself, so submitting an answer does advance — pressing
"A" on question qA (with next random index 1) leaves qB, not qA, as the
current question. -/
theorem claim6_counterexample :
    ¬ (∀ (opt : String) (r : Nat) (s1 s2 : List (Nat × Nat))
         (s s2st : GameState),
         submitAnswer opt r s1 s2 s = some s2st →
         s2st.currentQuestion = s.currentQuestion) := by
  intro h
  have hs := h "A" 1 [] [] st6 st6b (by decide)
  exact absurd hs (by decide)

/-- Claim C6, amended: submitting an answer auto-advances — the handler
adds the 0/1 score increment and immediately calls `loadQuestion`, so the
resulting current question is the fresh random pick from the chapter pool
(`none` exactly when the pool is empty), not the question just answered. -/
theorem claim6_amended_submit_advances {opt : String} {r : Nat}
    {s1 s2 : List (Nat × Nat)} {s s2st : GameState} {q : Question}
    (hq : s.currentQuestion = some q) (hopt : opt ∈ s.options)
    (h : submitAnswer opt r s1 s2 s = some s2st) :
    s2st.currentQuestion =
      pickQuestion (getQuestionsByChapter s.questions s.currentChapter) r ∧
    s2st.score = s.score + (if opt = q.QAnswer then 1 else 0) := by
  simp only [submitAnswer, hq, if_pos hopt] at h
  simp only [loadQuestion] at h
  split at h
  · rename_i hpick
    cases h
    exact ⟨hpick.symm, rfl⟩
  · rename_i q2 hpick
    split at h
    · cases h
    · cases h
      exact ⟨hpick.symm, rfl⟩

/-- Witness for amended claim C6 at a concrete input: pressing "A" in `st6`
with random index 1 lands on the pick `pickQuestion bank4 1` (= qB) and
increments the score from 0 to 1. -/
theorem claim6_amended_submit_advances_witness :
    st6.currentQuestion = some qA ∧ "A" ∈ st6.options ∧
    submitAnswer "A" 1 [] [] st6 = some st6b ∧
    (st6b.currentQuestion =
       pickQuestion (getQuestionsByChapter st6.questions st6.currentChapter) 1 ∧
     st6b.score = st6.score + (if "A" = qA.QAnswer then 1 else 0)) :=
  ⟨by decide, by decide, by decide,
   @claim6_amended_submit_advances "A" 1 [] [] st6 st6b qA
     (by decide) (by decide) (by decide)⟩

/- ### Starting a quiz on an empty chapter -/

/-- The state reached by selecting chapter "4" (which has no questions in
`bank4`) from the fresh chapter menu. -/
def st7 : GameState :=
  (step (UAction.selectChapter "4" 0 [] []) (initState bank4)).getD
    (initState bank4)

/-- Claim C7 as stated is false: selecting a chapter with an empty pool does
enter the quiz view — the radio callback swaps in the game layout before
`loadQuestion` notices the pool is empty, so the session does not remain at
chapter selection and no error value is produced. -/
theorem claim7_counterexample :
    ¬ (∀ (s : GameState) (c : String) (r : Nat) (s1 s2 : List (Nat × Nat))
         (s2st : GameState),
         s.view = View.chapterSelect →
         getQuestionsByChapter s.questions c = [] →
         step (UAction.selectChapter c r s1 s2) s = some s2st →
         s2st.view = View.chapterSelect) := by
  intro h
  have hs := h (initState bank4) "4" 0 [] [] st7 (by decide) (by decide)
      (by decide)
  exact absurd hs (by decide)

/-- Claim C7, amended: selecting a chapter whose pool is empty succeeds and
enters the quiz view, where `loadQuestion` displays "No questions available
for this chapter." with no option buttons; no error value exists and the
session stays in the quiz view (score and the other widgets untouched). -/
theorem claim7_amended_empty_pool_message (s : GameState) (c : String)
    (r : Nat) (s1 s2 : List (Nat × Nat))
    (hempty : getQuestionsByChapter s.questions c = []) :
    selectChapter c r s1 s2 s =
      some { s with currentChapter := c, view := View.quiz,
                    questionLabel :=
                      "No questions available for this chapter.",
                    options := [], currentQuestion := none } := by
  simp only [selectChapter, loadQuestion]
  have hpool :
      getQuestionsByChapter
        ({ s with currentChapter := c, view := View.quiz } :
          GameState).questions c = [] := hempty
  rw [hpool]
  rfl

/-- Witness for amended claim C7 at a concrete input: selecting chapter "4"
on the four-question bank (all chapter "1") yields the quiz view with the
no-questions message. -/
theorem claim7_amended_empty_pool_message_witness :
    getQuestionsByChapter (initState bank4).questions "4" = [] ∧
    selectChapter "4" 0 [] [] (initState bank4) =
      some { (initState bank4) with
               currentChapter := "4", view := View.quiz,
               questionLabel := "No questions available for this chapter.",
               options := [], currentQuestion := none } :=
  ⟨by decide,
   claim7_amended_empty_pool_message (initState bank4) "4" 0 [] []
     (by decide)⟩

/- ### Loading the question bank -/

/-- Claim C8 as stated is false: the loader checks only the field COUNT of a
row, not field contents, so a 6-field row whose third (answer) field is the
empty string becomes a bank question with an empty answer. -/
theorem claim8_counterexample :
    ¬ (∀ (rows : List (List String)) (q : Question),
        q ∈ loadQuestionsFromExcel rows → q.QAnswer ≠ "") := by
  intro h
  exact h [["id", "ch", "ans", "hira", "rom", "type"],
           ["7", "2", "", "h", "r", "t"]]
      ⟨"7", "2", "", "h", "r", "t"⟩ (by decide) rfl

/-- Claim C8, amended: every question in the bank after load originates from
a data row (header excluded) with at least 6 fields, its six fields taken
positionally — rows with fewer than 6 fields are dropped at load time.
Field contents are not validated, so an empty answer field survives into the
bank. -/
theorem claim8_amended_load_provenance {rows : List (List String)}
    {q : Question} (h : q ∈ loadQuestionsFromExcel rows) :
    ∃ row ∈ rows.tail, 6 ≤ row.length ∧ parseRow row = some q := by
  simp only [loadQuestionsFromExcel] at h
  rw [List.mem_filterMap] at h
  obtain ⟨row, hrow, hparse⟩ := h
  refine ⟨row, hrow, ?_, hparse⟩
  by_contra hlen
  simp only [parseRow] at hparse
  rw [if_pos (by omega)] at hparse
  exact Option.noConfusion hparse

/-- Rows used in the witness for amended claim C8: a header row followed by
one full 6-field data row. -/
def rows8 : List (List String) :=
  [["id", "ch", "ans", "hira", "rom", "type"],
   ["1", "1", "A", "ha", "ra", "t"]]

/-- Witness for amended claim C8 at a concrete input: the loaded question
comes from the single 6-field data row of `rows8`. -/
theorem claim8_amended_load_provenance_witness :
    (⟨"1", "1", "A", "ha", "ra", "t"⟩ : Question) ∈
      loadQuestionsFromExcel rows8 ∧
    ∃ row ∈ rows8.tail, 6 ≤ row.length ∧
      parseRow row = some ⟨"1", "1", "A", "ha", "ra", "t"⟩ :=
  ⟨by decide,
   @claim8_amended_load_provenance rows8 ⟨"1", "1", "A", "ha", "ra", "t"⟩
     (by decide)⟩
